import Mathlib

/-
Verification of the constants-forwarding header `src/tool/wrapper.h` of the
STM32-USBFloppyTracer repository.  The header is embedded shallowly: its
items (comments, the `#undef` directive, the two `#include` directives and
the three `const uint32_t` declarations) become a concrete Lean list, the C
preprocessor's macro state is a list of defined macro names, and compilation
against a build environment (presence of the wrapped library header and the
integer values its enumeration gives to the referenced members) is an
explicit function returning `Except`.
-/

namespace USBFloppyTracer

/-- A C object type as far as this header needs: the fixed-width unsigned
integer type `uint32_t`, or an enumerated type with a tag name. -/
inductive CType where
  | uint32T : CType
  | enumT : String → CType
deriving DecidableEq

/-- Whether a C type is an enumerated type. -/
def CType.isEnum : CType → Bool
  | CType.enumT _ => true
  | CType.uint32T => false

/-- Whether a C type is the plain 32-bit unsigned integer type. -/
def CType.isPlainUnsigned32 : CType → Bool
  | CType.uint32T => true
  | CType.enumT _ => false

/-- A C initializer expression: an identifier, an integer literal, or a
binary operator application.  The source's initializers are all bare
identifiers; the other constructors exist so that properties such as "the
initializer is not a computation" are non-vacuous. -/
inductive CExpr where
  | ident : String → CExpr
  | intLit : Int → CExpr
  | binop : String → CExpr → CExpr → CExpr
deriving DecidableEq

/-- Whether an initializer is a single identifier (no computation). -/
def CExpr.isBareIdent : CExpr → Bool
  | CExpr.ident _ => true
  | CExpr.intLit _ => false
  | CExpr.binop _ _ _ => false

/-- Whether an expression mentions the identifier `m`. -/
def CExpr.references : CExpr → String → Bool
  | CExpr.ident n, m => n == m
  | CExpr.intLit _, _ => false
  | CExpr.binop _ a b, m => a.references m || b.references m

/-- One item of the header file: a comment line, a blank line, an `#undef`
directive, an `#include` directive, an object declaration
(const-qualified flag, type, name, initializer), or a function definition.
The header contains no function definition; the constructor exists so that
"the header defines no runtime code" is a real structural check. -/
inductive HeaderItem where
  | commentLine : String → HeaderItem
  | blankLine : HeaderItem
  | undefDirective : String → HeaderItem
  | includeDirective : String → HeaderItem
  | constDecl : Bool → CType → String → CExpr → HeaderItem
  | funcDef : String → List String → HeaderItem
deriving DecidableEq

/-- `src/tool/wrapper.h`, item by item, in source order. -/
def wrapper_h : List HeaderItem :=
  [ HeaderItem.commentLine "I don\x27t get this. But it seems to be required under Windows",
    HeaderItem.commentLine "to make bindgen to work while compilation is not an issue.",
    HeaderItem.undefDirective "_WIN32",
    HeaderItem.blankLine,
    HeaderItem.includeDirective "stdint.h",
    HeaderItem.includeDirective "caps/CapsLibAll.h",
    HeaderItem.blankLine,
    HeaderItem.commentLine "Fixes indirection as with newer versions of libcapsimage, the lock flags are now",
    HeaderItem.commentLine "enums instead of actual constants. bindgen has issues detecting that.",
    HeaderItem.constDecl true CType.uint32T "FLAG_LOCK_INDEX" (CExpr.ident "DI_LOCK_INDEX"),
    HeaderItem.constDecl true CType.uint32T "FLAG_LOCK_DENVAR" (CExpr.ident "DI_LOCK_DENVAR"),
    HeaderItem.constDecl true CType.uint32T "FLAG_LOCK_TYPE" (CExpr.ident "DI_LOCK_TYPE") ]

/-- The raw text lines of `src/tool/wrapper.h`, verbatim. -/
def wrapperFileLines : List String :=
  [ "// I don\x27t get this. But it seems to be required under Windows",
    "// to make bindgen to work while compilation is not an issue.",
    "#undef _WIN32",
    "",
    "#include <stdint.h>",
    "#include <caps/CapsLibAll.h>",
    "",
    "// Fixes indirection as with newer versions of libcapsimage, the lock flags are now",
    "// enums instead of actual constants. bindgen has issues detecting that.",
    "const uint32_t FLAG_LOCK_INDEX = DI_LOCK_INDEX;",
    "const uint32_t FLAG_LOCK_DENVAR = DI_LOCK_DENVAR;",
    "const uint32_t FLAG_LOCK_TYPE = DI_LOCK_TYPE;" ]

/-- The provided source tree: every source file with its text lines. -/
def sourceFiles : List (String × List String) :=
  [ ("src/tool/wrapper.h", wrapperFileLines) ]

/-- Macro state threaded through the items: `#undef m` removes `m` from the
set of defined macros; the state at the first `#include` of `path` is
returned, `none` when `path` is never included. -/
def stateAtInclude (path : String) : List HeaderItem → List String → Option (List String)
  | [], _ => none
  | HeaderItem.undefDirective m :: rest, defined =>
      stateAtInclude path rest (defined.filter (fun d => d != m))
  | HeaderItem.includeDirective p :: rest, defined =>
      if p = path then some defined else stateAtInclude path rest defined
  | _ :: rest, defined => stateAtInclude path rest defined

/-- All include events of the header, in order: each `#include` paired with
the macro state in force when it is processed. -/
def includeEventsFrom : List HeaderItem → List String → List (String × List String)
  | [], _ => []
  | HeaderItem.undefDirective m :: rest, defined =>
      includeEventsFrom rest (defined.filter (fun d => d != m))
  | HeaderItem.includeDirective p :: rest, defined =>
      (p, defined) :: includeEventsFrom rest defined
  | _ :: rest, defined => includeEventsFrom rest defined

/-- A build environment: whether the wrapped library's header
`caps/CapsLibAll.h` is present, and the (integer) value its enumeration
gives to each identifier, `none` when the identifier is not defined. -/
structure LibEnv where
  headerPresent : Bool
  enumDef : String → Option Int
deriving Inhabited

/-- A compile-time failure: a missing include file, or an undeclared
identifier used in an initializer. -/
inductive CompileError where
  | missingInclude : String → CompileError
  | undeclaredIdent : String → CompileError
deriving DecidableEq

/-- Semantics of the binary operators an initializer could use (the source
uses none). -/
def applyBinop (op : String) (a b : Int) : Int :=
  if op = "+" then a + b
  else if op = "<<" then a * 2 ^ b.toNat
  else 0

/-- Compile-time evaluation of an initializer against the library's
enumeration definitions. -/
def evalCExpr (env : String → Option Int) : CExpr → Except CompileError Int
  | CExpr.ident n =>
      match env n with
      | some v => Except.ok v
      | none => Except.error (CompileError.undeclaredIdent n)
  | CExpr.intLit v => Except.ok v
  | CExpr.binop op a b => do
      let va ← evalCExpr env a
      let vb ← evalCExpr env b
      Except.ok (applyBinop op va vb)

/-- C conversion of an integer value to `uint32_t`: reduction modulo 2^32
(C17 6.3.1.3p2); `Int.emod` is non-negative for a positive modulus, so this
is exactly the mathematical residue. -/
def uint32Of (v : Int) : Int := v % (2 ^ 32 : Int)

/-- Conversion of an initializer value to the declared type: to `uint32_t`
by reduction modulo 2^32; initialization of an enum-typed object keeps the
value. -/
def convertTo : CType → Int → Int
  | CType.uint32T, v => uint32Of v
  | CType.enumT _, v => v

/-- Compilation of the header against a build environment: the `#include`
of the wrapped library's header fails when that header is missing, each
declaration's initializer is evaluated and converted to the declared type,
and the list of (name, value) constants is produced. -/
def compileHeader (lib : LibEnv) : List HeaderItem → Except CompileError (List (String × Int))
  | [] => Except.ok []
  | HeaderItem.includeDirective p :: rest =>
      if p = "caps/CapsLibAll.h" ∧ lib.headerPresent = false
      then Except.error (CompileError.missingInclude p)
      else compileHeader lib rest
  | HeaderItem.constDecl _ ty name e :: rest => do
      let v ← evalCExpr lib.enumDef e
      let tail ← compileHeader lib rest
      Except.ok ((name, convertTo ty v) :: tail)
  | _ :: rest => compileHeader lib rest

/-- Whether compiling the header against `lib` succeeds. -/
def compileSucceeds (lib : LibEnv) : Bool :=
  match compileHeader lib wrapper_h with
  | Except.ok _ => true
  | Except.error _ => false

/-- Closed form of compiling `wrapper_h`: an error exactly for a missing
library header or an undefined enum member, otherwise the three constants
with their converted values. -/
def compiledResult (lib : LibEnv) : Except CompileError (List (String × Int)) :=
  if lib.headerPresent = false then Except.error (CompileError.missingInclude "caps/CapsLibAll.h")
  else
    match lib.enumDef "DI_LOCK_INDEX" with
    | none => Except.error (CompileError.undeclaredIdent "DI_LOCK_INDEX")
    | some vi =>
      match lib.enumDef "DI_LOCK_DENVAR" with
      | none => Except.error (CompileError.undeclaredIdent "DI_LOCK_DENVAR")
      | some vd =>
        match lib.enumDef "DI_LOCK_TYPE" with
        | none => Except.error (CompileError.undeclaredIdent "DI_LOCK_TYPE")
        | some vt =>
          Except.ok [ ("FLAG_LOCK_INDEX", uint32Of vi),
                      ("FLAG_LOCK_DENVAR", uint32Of vd),
                      ("FLAG_LOCK_TYPE", uint32Of vt) ]

/-- The three exported constant names, in declaration order. -/
def exportedNames : List String :=
  ["FLAG_LOCK_INDEX", "FLAG_LOCK_DENVAR", "FLAG_LOCK_TYPE"]

/-- The object declarations of a header, in order, as
(const-qualified, type, name, initializer). -/
def constDecls : List HeaderItem → List (Bool × CType × String × CExpr)
  | [] => []
  | HeaderItem.constDecl c ty n e :: rest => (c, ty, n, e) :: constDecls rest
  | _ :: rest => constDecls rest

/-- The declaration of the named object in a header, if any. -/
def declOf (name : String) : List HeaderItem → Option (Bool × CType × CExpr)
  | [] => none
  | HeaderItem.constDecl c ty n e :: rest =>
      if n = name then some (c, ty, e) else declOf name rest
  | _ :: rest => declOf name rest

/-- Whether a header item defines runtime code (a function body -- the only
item kind that could perform I/O, branch, or handle an error at run time). -/
def definesRuntimeCode : HeaderItem → Bool
  | HeaderItem.funcDef _ _ => true
  | _ => false

/-- A build environment with the lock members bound to the values real
libcapsimage versions use (1, 2, 4) and nothing else defined. -/
def realLib : LibEnv :=
  ⟨true, fun n =>
    if n = "DI_LOCK_INDEX" then some 1
    else if n = "DI_LOCK_DENVAR" then some 2
    else if n = "DI_LOCK_TYPE" then some 4
    else none⟩

/-- A hypothetical build environment whose header defines `DI_LOCK_INDEX`
as the negative value -1. -/
def negLib : LibEnv :=
  ⟨true, fun n =>
    if n = "DI_LOCK_INDEX" then some (-1)
    else if n = "DI_LOCK_DENVAR" then some 2
    else if n = "DI_LOCK_TYPE" then some 4
    else none⟩

/-- A build environment agreeing with `realLib` on the three lock members
but differing everywhere else. -/
def otherLib : LibEnv :=
  ⟨true, fun n =>
    if n = "DI_LOCK_INDEX" then some 1
    else if n = "DI_LOCK_DENVAR" then some 2
    else if n = "DI_LOCK_TYPE" then some 4
    else some 99⟩

/-- A name is never kept by a filter that demands difference from it. -/
theorem mem_filter_ne_self (m : String) (l : List String) :
    m ∉ l.filter (fun d => d != m) := by
  intro h
  have h2 := (List.mem_filter.mp h).2
  simp at h2

/-- Filtering out a name not in the list leaves the list unchanged. -/
theorem filter_ne_of_not_mem (m : String) (l : List String) (h : m ∉ l) :
    l.filter (fun d => d != m) = l := by
  refine List.filter_eq_self.mpr (fun a ha => ?_)
  simp only [bne_iff_ne, ne_eq, decide_eq_true_eq]
  intro heq
  exact h (heq ▸ ha)

/-- C9: for every initial macro state, every inclusion of the wrapped
library's header `caps/CapsLibAll.h` in `wrapper.h` happens with `_WIN32`
not defined: the `#undef _WIN32` is unconditional and textually precedes
both `#include` directives. -/
theorem c9_undef_unconditionally_precedes_include (initDefined ms : List String)
    (h : ("caps/CapsLibAll.h", ms) ∈ includeEventsFrom wrapper_h initDefined) :
    "_WIN32" ∉ ms := by
  simp only [wrapper_h, includeEventsFrom, List.mem_cons, List.not_mem_nil, or_false,
    Prod.mk.injEq] at h
  rcases h with ⟨h1, _⟩ | ⟨_, h2⟩
  · exact absurd h1 (by decide)
  · exact h2 ▸ mem_filter_ne_self "_WIN32" initDefined

/-- Witness for C9: starting from a Windows-like state in which `_WIN32`
is defined, the library header is included with state `["WIN32"]`, which
does not contain `_WIN32`. -/
theorem c9_witness : "_WIN32" ∉ (["WIN32"] : List String) :=
  c9_undef_unconditionally_precedes_include ["_WIN32", "WIN32"] ["WIN32"] (by decide)

/-- Counterexample to C2: on a non-Windows build environment (initial macro
state `["__linux__"]`, in which `_WIN32` is not defined) the wrapped
library's header is included with macro state `["__linux__"]`, in which
`_WIN32` is NOT defined -- the macro is not "left defined" on other target
operating systems, and the `#undef` is not restricted to one of them. -/
theorem c2_counterexample :
    stateAtInclude "caps/CapsLibAll.h" wrapper_h ["__linux__"] = some ["__linux__"] ∧
    "_WIN32" ∉ (["__linux__"] : List String) := by decide

/-- C2 (amended): the `#undef _WIN32` is unconditional; for every initial
macro state the wrapped library's header is included with `_WIN32` removed
from the defined macros, so `_WIN32` is never defined at that inclusion; on
target operating systems where `_WIN32` was not predefined the directive
leaves the macro state unchanged. -/
theorem c2_amended_undef_unconditional (initDefined : List String) :
    stateAtInclude "caps/CapsLibAll.h" wrapper_h initDefined
      = some (initDefined.filter (fun d => d != "_WIN32")) ∧
    "_WIN32" ∉ initDefined.filter (fun d => d != "_WIN32") ∧
    ("_WIN32" ∉ initDefined →
      initDefined.filter (fun d => d != "_WIN32") = initDefined) := by
  refine ⟨?_, mem_filter_ne_self _ _, fun h => filter_ne_of_not_mem _ _ h⟩
  simp [wrapper_h, stateAtInclude]

/-- Witness for C2 (amended), at the concrete initial state `["__GNUC__"]`. -/
theorem c2_witness :
    stateAtInclude "caps/CapsLibAll.h" wrapper_h ["__GNUC__"]
      = some (["__GNUC__"].filter (fun d => d != "_WIN32")) ∧
    "_WIN32" ∉ ["__GNUC__"].filter (fun d => d != "_WIN32") ∧
    ("_WIN32" ∉ (["__GNUC__"] : List String) →
      ["__GNUC__"].filter (fun d => d != "_WIN32") = ["__GNUC__"]) :=
  c2_amended_undef_unconditional ["__GNUC__"]

/-- Compiling `wrapper.h` has the closed form `compiledResult`: it depends
only on the presence of the library header and on the definitions of the
three referenced enum members. -/
theorem compileHeader_wrapper_eq (lib : LibEnv) :
    compileHeader lib wrapper_h = compiledResult lib := by
  cases hp : lib.headerPresent <;>
  cases hi : lib.enumDef "DI_LOCK_INDEX" <;>
  cases hd : lib.enumDef "DI_LOCK_DENVAR" <;>
  cases ht : lib.enumDef "DI_LOCK_TYPE" <;>
    simp [wrapper_h, compileHeader, compiledResult, evalCExpr, convertTo,
      hp, hi, hd, ht, Except.bind] <;> rfl

/-- C1 (amended): for every build environment in which the wrapped library's
header is present and defines the three enum members with values
representable in 32 unsigned bits, each exported constant's value equals
the corresponding enum member's value. -/
theorem c1_amended_constants_match (lib : LibEnv) (vi vd vt : Int)
    (hp : lib.headerPresent = true)
    (hi : lib.enumDef "DI_LOCK_INDEX" = some vi)
    (hd : lib.enumDef "DI_LOCK_DENVAR" = some vd)
    (ht : lib.enumDef "DI_LOCK_TYPE" = some vt)
    (hri : 0 ≤ vi ∧ vi < 2 ^ 32)
    (hrd : 0 ≤ vd ∧ vd < 2 ^ 32)
    (hrt : 0 ≤ vt ∧ vt < 2 ^ 32) :
    compileHeader lib wrapper_h =
      Except.ok [ ("FLAG_LOCK_INDEX", vi),
                  ("FLAG_LOCK_DENVAR", vd),
                  ("FLAG_LOCK_TYPE", vt) ] := by
  have ei : uint32Of vi = vi := Int.emod_eq_of_lt hri.1 hri.2
  have ed : uint32Of vd = vd := Int.emod_eq_of_lt hrd.1 hrd.2
  have et : uint32Of vt = vt := Int.emod_eq_of_lt hrt.1 hrt.2
  rw [compileHeader_wrapper_eq]
  simp [compiledResult, hp, hi, hd, ht, ei, ed, et]

/-- Witness for C1 (amended): against a build environment defining the
members as 1, 2, 4 (the values real libcapsimage versions use), the three
constants receive exactly 1, 2, 4. -/
theorem c1_witness :
    compileHeader realLib wrapper_h =
      Except.ok [ ("FLAG_LOCK_INDEX", (1 : Int)),
                  ("FLAG_LOCK_DENVAR", 2),
                  ("FLAG_LOCK_TYPE", 4) ] :=
  c1_amended_constants_match realLib 1 2 4 rfl rfl rfl rfl
    (by decide) (by decide) (by decide)

/-- Counterexample to C1: a build environment whose header defines
`DI_LOCK_INDEX` as -1 compiles, but the exported constant receives
4294967295 (= -1 mod 2^32), which is not the enum member's value. -/
theorem c1_counterexample :
    compileHeader negLib wrapper_h =
      Except.ok [ ("FLAG_LOCK_INDEX", (4294967295 : Int)),
                  ("FLAG_LOCK_DENVAR", 2),
                  ("FLAG_LOCK_TYPE", 4) ] ∧
    (4294967295 : Int) ≠ -1 := by
  exact ⟨by rw [compileHeader_wrapper_eq]; rfl, by decide⟩

/-- C5: compiling the header fails exactly when the wrapped library's
header is missing or one of the referenced enum members is not defined
(a compile-time failure only), and the header contains no runtime code,
hence no runtime error path and no error handling of its own. -/
theorem c5_failure_only_at_compile_time (lib : LibEnv) :
    (compileSucceeds lib = false ↔
      lib.headerPresent = false ∨
      lib.enumDef "DI_LOCK_INDEX" = none ∨
      lib.enumDef "DI_LOCK_DENVAR" = none ∨
      lib.enumDef "DI_LOCK_TYPE" = none) ∧
    wrapper_h.all (fun it => !definesRuntimeCode it) = true := by
  refine ⟨?_, by decide⟩
  unfold compileSucceeds
  rw [compileHeader_wrapper_eq]
  cases hp : lib.headerPresent <;>
  cases hi : lib.enumDef "DI_LOCK_INDEX" <;>
  cases hd : lib.enumDef "DI_LOCK_DENVAR" <;>
  cases ht : lib.enumDef "DI_LOCK_TYPE" <;>
    simp [compiledResult, hp, hi, hd, ht]

/-- Witness for C5, at a concrete failing environment: with the library
header absent, compilation fails. -/
theorem c5_witness :
    (compileSucceeds ⟨false, fun _ => none⟩ = false ↔
      LibEnv.headerPresent ⟨false, fun _ => none⟩ = false ∨
      LibEnv.enumDef ⟨false, fun _ => none⟩ "DI_LOCK_INDEX" = none ∨
      LibEnv.enumDef ⟨false, fun _ => none⟩ "DI_LOCK_DENVAR" = none ∨
      LibEnv.enumDef ⟨false, fun _ => none⟩ "DI_LOCK_TYPE" = none) ∧
    wrapper_h.all (fun it => !definesRuntimeCode it) = true :=
  c5_failure_only_at_compile_time ⟨false, fun _ => none⟩

/-- C6: determinism and noninterference -- two build environments that
agree on the presence of the library header and on the definitions of the
three referenced members produce identical compilation results; no other
input influences the exported constants. -/
theorem c6_deterministic (lib1 lib2 : LibEnv)
    (hp : lib1.headerPresent = lib2.headerPresent)
    (h1 : lib1.enumDef "DI_LOCK_INDEX" = lib2.enumDef "DI_LOCK_INDEX")
    (h2 : lib1.enumDef "DI_LOCK_DENVAR" = lib2.enumDef "DI_LOCK_DENVAR")
    (h3 : lib1.enumDef "DI_LOCK_TYPE" = lib2.enumDef "DI_LOCK_TYPE") :
    compileHeader lib1 wrapper_h = compileHeader lib2 wrapper_h := by
  rw [compileHeader_wrapper_eq, compileHeader_wrapper_eq]
  unfold compiledResult
  rw [hp, h1, h2, h3]

/-- Witness for C6: `realLib` and `otherLib` agree on the three members but
differ on every other identifier, yet compile to the same constants. -/
theorem c6_witness :
    compileHeader realLib wrapper_h = compileHeader otherLib wrapper_h :=
  c6_deterministic realLib otherLib rfl rfl rfl rfl

/-- C10: each exported constant's value is the corresponding enum member's
value converted to `uint32_t`, i.e. reduced modulo 2^32, whatever integer
values the library's header defines the members with. -/
theorem c10_value_is_mod_2_32 (lib : LibEnv) (vi vd vt : Int)
    (hp : lib.headerPresent = true)
    (hi : lib.enumDef "DI_LOCK_INDEX" = some vi)
    (hd : lib.enumDef "DI_LOCK_DENVAR" = some vd)
    (ht : lib.enumDef "DI_LOCK_TYPE" = some vt) :
    compileHeader lib wrapper_h =
      Except.ok [ ("FLAG_LOCK_INDEX", vi % 2 ^ 32),
                  ("FLAG_LOCK_DENVAR", vd % 2 ^ 32),
                  ("FLAG_LOCK_TYPE", vt % 2 ^ 32) ] := by
  rw [compileHeader_wrapper_eq]
  simp [compiledResult, hp, hi, hd, ht, uint32Of]

/-- Witness for C10: with `DI_LOCK_INDEX` defined as the negative value -1,
the exported constant is (-1) mod 2^32 = 4294967295, not -1 itself. -/
theorem c10_witness :
    compileHeader negLib wrapper_h =
      Except.ok [ ("FLAG_LOCK_INDEX", (-1 : Int) % 2 ^ 32),
                  ("FLAG_LOCK_DENVAR", (2 : Int) % 2 ^ 32),
                  ("FLAG_LOCK_TYPE", (4 : Int) % 2 ^ 32) ] :=
  c10_value_is_mod_2_32 negLib (-1) 2 4 rfl rfl rfl rfl

/-- C3: each of the three exported symbols is declared as a const scalar of
type `uint32_t` with a bare-identifier initializer, and `uint32_t` is a
plain 32-bit unsigned integer type, not an enumerated type. -/
theorem c3_plain_uint32_constants :
    declOf "FLAG_LOCK_INDEX" wrapper_h
      = some (true, CType.uint32T, CExpr.ident "DI_LOCK_INDEX") ∧
    declOf "FLAG_LOCK_DENVAR" wrapper_h
      = some (true, CType.uint32T, CExpr.ident "DI_LOCK_DENVAR") ∧
    declOf "FLAG_LOCK_TYPE" wrapper_h
      = some (true, CType.uint32T, CExpr.ident "DI_LOCK_TYPE") ∧
    CType.uint32T.isEnum = false ∧
    CType.uint32T.isPlainUnsigned32 = true := by decide

/-- C4: every object declaration of the header is const-qualified
(immutable after its single initialization), its initializer is a single
identifier (no computation), no initializer mentions any of the three
exported constants (no expression relates them to each other), each
exported name is declared exactly once, and the header defines no runtime
code that could mutate them. -/
theorem c4_never_computed_or_mutated :
    (constDecls wrapper_h).all (fun d => d.1) = true ∧
    (constDecls wrapper_h).all (fun d => d.2.2.2.isBareIdent) = true ∧
    (constDecls wrapper_h).all
      (fun d => exportedNames.all (fun m => !(d.2.2.2.references m))) = true ∧
    (constDecls wrapper_h).map (fun d => d.2.2.1) = exportedNames ∧
    wrapper_h.all (fun it => !definesRuntimeCode it) = true := by decide

/-- C7: the header's only action is to republish the three enum members as
integer constants: its object declarations are exactly the three
`const uint32_t` flags initialized from the three `DI_LOCK_*` identifiers,
and no item of the header defines runtime code (so there is no I/O and no
control flow of its own). -/
theorem c7_single_action :
    constDecls wrapper_h =
      [ (true, CType.uint32T, "FLAG_LOCK_INDEX", CExpr.ident "DI_LOCK_INDEX"),
        (true, CType.uint32T, "FLAG_LOCK_DENVAR", CExpr.ident "DI_LOCK_DENVAR"),
        (true, CType.uint32T, "FLAG_LOCK_TYPE", CExpr.ident "DI_LOCK_TYPE") ] ∧
    wrapper_h.all (fun it => !definesRuntimeCode it) = true := by decide

/-- Counterexample to C8: the provided source is one header of 12 lines,
not a 21-line header and not two 10-line files. -/
theorem c8_counterexample :
    wrapperFileLines.length = 12 ∧
    sourceFiles.length = 1 ∧
    ¬(wrapperFileLines.length = 21) ∧
    ¬(sourceFiles.length = 2) ∧
    ¬(sourceFiles.map (fun f => f.2.length) = [10, 10]) := by decide

/-- C8 (amended): the repository's provided source content is a single C
header file, `src/tool/wrapper.h`, of 12 text lines. -/
theorem c8_amended_single_12_line_header :
    sourceFiles = [("src/tool/wrapper.h", wrapperFileLines)] ∧
    wrapperFileLines.length = 12 := by decide

end USBFloppyTracer
